import Mathlib

/-!
Verification of the Steam status widget's retry/backoff polling logic
(`src/components/OpenSourceCard.astro`, `<script>` block of the Steam
status component).

The script keeps three module-level variables: `retryCount` (starts at 0),
`maxRetries` (the constant 10), `retryTimeoutId` (the pending one-shot
retry timer, if any) and, further down, `updateInterval` (the periodic
refresh interval created by `startPeriodicUpdates`).  We embed that
mutable state as an explicit `SchedState` record, where

* `retryTimer` models the pending one-shot retry timeout: `some d` means a
  timeout armed for `d` milliseconds is pending, `none` means no retry
  timeout is pending.  (The source variable `retryTimeoutId` stores the
  timer id and may keep a stale id after the timer fires; since the id is
  only used for `clearTimeout` — a no-op on a fired timer — and for the
  guard around `clearTimeout`, tracking the pending timer itself is
  behaviourally equivalent.)
* `updateInterval` models the periodic interval: `some p` means an
  interval with period `p` ms exists, `none` means none was created yet.
* `intervalsCreated` is a history variable counting how many times the
  source called `setInterval`; the source never calls `clearInterval` on
  `updateInterval`, so this counts intervals ever created.
-/

set_option autoImplicit false
set_option linter.unnecessarySeqFocus false

namespace Steam

/-- The classified result of one fetch attempt, as the source's
`fetchSteamStatus` dispatches on it: `success` is the path reached after
the `data.error || data.loading` guard fails (2xx, parseable JSON, no
error/loading marker); `softFailure` is `data.error` or `data.loading`;
`hardFailure` is a non-2xx status, a network error, a timeout abort or a
JSON parse error (all of which call `scheduleRetry` from the non-ok check
or the catch block). -/
inductive PollOutcome where
  | success
  | softFailure
  | hardFailure
deriving DecidableEq, Repr

/-- `true` exactly for the two outcomes that route to `scheduleRetry`. -/
def PollOutcome.isFailure : PollOutcome → Bool
  | .success => false
  | .softFailure => true
  | .hardFailure => true

/-- The widget's mutable module-level state (see the module docstring for
the correspondence with the source's variables). -/
structure SchedState where
  retryCount : Nat
  retryTimer : Option Nat
  updateInterval : Option Nat
  intervalsCreated : Nat
deriving DecidableEq, Repr

/-- `const maxRetries = 10;` -/
def maxRetries : Nat := 10

/-- The state at script load: `retryCount = 0`, no retry timeout pending,
`updateInterval = null`, no interval ever created. -/
def initState : SchedState :=
  { retryCount := 0, retryTimer := none, updateInterval := none
    intervalsCreated := 0 }

/-- The delay computed inside `scheduleRetry` for the (already
incremented) `retryCount`:
`retryCount <= 5 ? 1000 : Math.min(Math.pow(2, retryCount - 5) * 5000, 30000)`.
The exponent argument is at least 1 in the second branch, so JS float
arithmetic is exact here and `Nat` arithmetic is faithful. -/
def retryDelay (retryCount : Nat) : Nat :=
  if retryCount ≤ 5 then 1000
  else min (2 ^ (retryCount - 5) * 5000) 30000

/-- `scheduleRetry()`: if `retryCount >= maxRetries`, log and return
(give up — nothing is armed, `retryCount` is not touched); otherwise
increment `retryCount`, compute the delay, clear any pending retry
timeout and arm a fresh one-shot timeout for the computed delay. -/
def scheduleRetry (s : SchedState) : SchedState :=
  if maxRetries ≤ s.retryCount then s
  else
    { s with
      retryCount := s.retryCount + 1
      retryTimer := some (retryDelay (s.retryCount + 1)) }

/-- `startPeriodicUpdates()`: only if no interval exists yet
(`if (!updateInterval)`), create one with period 120000 ms. The source
never clears this interval. -/
def startPeriodicUpdates (s : SchedState) : SchedState :=
  if s.updateInterval.isSome then s
  else
    { s with
      updateInterval := some 120000
      intervalsCreated := s.intervalsCreated + 1 }

/-- The state update `fetchSteamStatus` performs once the attempt's
outcome is known: on the success path it sets `retryCount = 0`, clears
the pending retry timeout and calls `startPeriodicUpdates()`; on either
failure path it calls `scheduleRetry()`. -/
def handleOutcome (s : SchedState) (o : PollOutcome) : SchedState :=
  match o with
  | .success =>
      startPeriodicUpdates { s with retryCount := 0, retryTimer := none }
  | .softFailure => scheduleRetry s
  | .hardFailure => scheduleRetry s

/-- An event of the widget's event loop after the initial fetch: either
the pending retry timeout fires (consuming it) and the resulting fetch
resolves with outcome `o`, or the periodic interval ticks and the
resulting fetch resolves with outcome `o`.  Classification and state
transition run synchronously once the fetch resolves, so one event is one
atomic state update. -/
inductive SchedEvent where
  | retryFired (o : PollOutcome)
  | intervalTick (o : PollOutcome)
deriving DecidableEq, Repr

/-- The outcome carried by an event. -/
def SchedEvent.outcome : SchedEvent → PollOutcome
  | .retryFired o => o
  | .intervalTick o => o

/-- An event can occur only if its timer is actually pending. -/
def enabled (s : SchedState) : SchedEvent → Bool
  | .retryFired _ => s.retryTimer.isSome
  | .intervalTick _ => s.updateInterval.isSome

/-- Effect of one event: a fired one-shot timeout is consumed before the
outcome is handled; an interval tick leaves the interval in place. -/
def applyEvent (s : SchedState) : SchedEvent → SchedState
  | .retryFired o => handleOutcome { s with retryTimer := none } o
  | .intervalTick o => handleOutcome s o

/-- Run a sequence of events from a state. -/
def runFrom (s : SchedState) : List SchedEvent → SchedState
  | [] => s
  | e :: es => runFrom (applyEvent s e) es

/-- A sequence of events is a valid continuation from `s` when each event
is enabled in the state it occurs in. -/
def validFrom (s : SchedState) : List SchedEvent → Bool
  | [] => true
  | e :: es => enabled s e && validFrom (applyEvent s e) es

/-- A run of the widget: the initial fetch (triggered by
`initializeSteamStatus`, no timer involved) resolves with `o₀`, then the
events `es` occur. -/
def startRun (o₀ : PollOutcome) (es : List SchedEvent) : SchedState :=
  runFrom (handleOutcome initState o₀) es

/-- Validity of a run: every event after the initial fetch is enabled
when it occurs. -/
def validRun (o₀ : PollOutcome) (es : List SchedEvent) : Bool :=
  validFrom (handleOutcome initState o₀) es

/-- `true` when every event in the list carries a failure outcome. -/
def allFailures : List SchedEvent → Bool
  | [] => true
  | e :: es => e.outcome.isFailure && allFailures es

/-- `true` when at some step of the event sequence a failure outcome is
handled while `retryCount ≥ maxRetries` — i.e. `scheduleRetry` takes its
give-up branch at that step. -/
def gaveUpDuring (s : SchedState) : List SchedEvent → Bool
  | [] => false
  | e :: es =>
      (e.outcome.isFailure && decide (maxRetries ≤ s.retryCount))
        || gaveUpDuring (applyEvent s e) es

/-- Number of pending timers in a state: the retry timeout and the
periodic interval are the only timers the widget arms (the bootstrap
element-existence poll is outside this fragment). -/
def pendingTimerCount (s : SchedState) : Nat :=
  (if s.retryTimer.isSome then 1 else 0)
    + (if s.updateInterval.isSome then 1 else 0)

/-! ### The parsed JSON payload and its classification / rendering -/

/-- One entry of `data.recentGames` as the source reads it. -/
structure SteamGame where
  appid : Nat
  name : String
  playtime_2weeks : Nat
  playtime_forever : Nat
  img_icon_url : String
deriving DecidableEq, Repr

/-- The fields of `data.player` that the modelled fragment reads.
`personastate` is modelled as a present integer (the source additionally
guards `typeof data.player.personastate !== 'undefined'`; no claim under
audit exercises a present `player` with an absent `personastate`). -/
structure SteamPlayer where
  personastate : Int
  personaname : Option String
deriving DecidableEq, Repr

/-- A parsed 2xx JSON body, with the fields `fetchSteamStatus` inspects:
`error` / `loading` markers (truthiness of `data.error` / `data.loading`),
the optional top-level `player`, the optional `currentGame` pointer and
the optional `recentGames` list. -/
structure SteamPayload where
  error : Bool
  loading : Bool
  player : Option SteamPlayer
  currentGame : Option SteamGame
  recentGames : Option (List SteamGame)
deriving DecidableEq, Repr

/-- Which scheduler path a parsed 2xx body drives in `fetchSteamStatus`:
`if (data.error || data.loading) { ... scheduleRetry(); return; }` and
otherwise the success path (`retryCount = 0; ...; startPeriodicUpdates()`)
runs unconditionally — in particular also when `data.player` is absent. -/
def classifyPayload (data : SteamPayload) : PollOutcome :=
  if data.error || data.loading then .softFailure else .success

/-- The `switch (personaState)` mapping a persona-state code to the
status text the widget renders; the `default` arm yields `"Unknown"`. -/
def personaStatusText (personaState : Int) : String :=
  if personaState = 0 then "Offline"
  else if personaState = 1 then "Online"
  else if personaState = 2 then "Busy"
  else if personaState = 3 then "Away"
  else if personaState = 4 then "Snooze"
  else if personaState = 5 then "Looking to trade"
  else if personaState = 6 then "Looking to play"
  else "Unknown"

/-- The status line the success path renders: the persona mapping when
`data.player` is present, the `"Status unavailable"` fallback otherwise. -/
def statusTextOf (data : SteamPayload) : String :=
  match data.player with
  | some p => personaStatusText p.personastate
  | none => "Status unavailable"

/-- The "Now playing" activity the success path shows: only inside the
`if (data.player ...)` branch, and only `if (data.currentGame)`; otherwise
the current-game element is hidden. -/
def currentActivityOf (data : SteamPayload) : Option String :=
  match data.player with
  | some _ => data.currentGame.map (fun g => g.name)
  | none => none

/-- The recent-games entries the success path displays:
`if (data.recentGames && data.recentGames.length > 0)` it renders
`data.recentGames.reverse().slice(0, 3)`; otherwise no game entries are
rendered (the element shows profile info or a placeholder instead). -/
def displayedRecentGames (data : SteamPayload) : List SteamGame :=
  match data.recentGames with
  | some gs => if 0 < gs.length then (gs.reverse).take 3 else []
  | none => []

/-! ### C1 / C7: the backoff delay table -/

/-- C1: for every `retryCount` in `[1,5]` the computed retry delay is
exactly 1000 ms, and for every `retryCount` in `[6,10]` it is exactly
`min(2^(retryCount-5)*5000, 30000)` ms, i.e. 10000, 20000, 30000, 30000,
30000 ms for `retryCount = 6,7,8,9,10`. -/
theorem c1_retryDelay_table (rc : Nat) :
    (1 ≤ rc → rc ≤ 5 → retryDelay rc = 1000) ∧
    (6 ≤ rc → rc ≤ 10 → retryDelay rc = min (2 ^ (rc - 5) * 5000) 30000) ∧
    retryDelay 6 = 10000 ∧ retryDelay 7 = 20000 ∧ retryDelay 8 = 30000 ∧
    retryDelay 9 = 30000 ∧ retryDelay 10 = 30000 := by
  refine ⟨fun _ h5 => ?_, fun h6 _ => ?_,
    by decide, by decide, by decide, by decide, by decide⟩
  · simp [retryDelay, h5]
  · have hn : ¬ rc ≤ 5 := by omega
    simp [retryDelay, hn]

/-- Witness for `c1_retryDelay_table` at `retryCount = 3` and
`retryCount = 8`. -/
theorem c1_retryDelay_table_witness :
    retryDelay 3 = 1000 ∧ retryDelay 8 = min (2 ^ (8 - 5) * 5000) 30000 :=
  ⟨(c1_retryDelay_table 3).1 (by decide) (by decide),
   (c1_retryDelay_table 8).2.1 (by decide) (by decide)⟩

/-- C7 counterexample: the delay at `retryCount = 6` is 10000 ms, not the
5000 ms the claimed sequence starts with
(`Math.min(Math.pow(2, 6 - 5) * 5000, 30000) = 10000`). -/
theorem c7_counterexample :
    retryDelay 6 = 10000 ∧ retryDelay 6 ≠ 5000 := by decide

/-- C7 amended: the sequence of computed retry delays for
`retryCount = 6, 7, 8, 9, ...` is 10000, 20000, 30000, 30000, ...
milliseconds (constant 30000 from `retryCount = 8` on). -/
theorem c7_amended :
    retryDelay 6 = 10000 ∧ retryDelay 7 = 20000 ∧
    ∀ rc : Nat, 8 ≤ rc → retryDelay rc = 30000 := by
  refine ⟨by decide, by decide, fun rc h8 => ?_⟩
  have hn : ¬ rc ≤ 5 := by omega
  have hpow : 2 ^ 3 ≤ 2 ^ (rc - 5) :=
    Nat.pow_le_pow_right (by decide) (by omega)
  have hge : 30000 ≤ 2 ^ (rc - 5) * 5000 :=
    calc 30000 ≤ 2 ^ 3 * 5000 := by decide
    _ ≤ 2 ^ (rc - 5) * 5000 := Nat.mul_le_mul_right 5000 hpow
  simp [retryDelay, hn]
  omega

/-- Witness for `c7_amended` at `retryCount = 9`. -/
theorem c7_amended_witness : retryDelay 9 = 30000 :=
  c7_amended.2.2 9 (by decide)

/-! ### C8: persona-state mapping -/

/-- C8: the numeric persona-state field maps to the online-state text by
the fixed table 0→Offline, 1→Online, 2→Busy, 3→Away, 4→Snooze,
5→Looking to trade, 6→Looking to play; every value outside the table
(e.g. 99) maps to Unknown (the mapping is a total function, so no error
is raised); and a payload with `personastate = 1` and no current-game
pointer classifies as success with status text Online and no current
activity. -/
theorem c8_personaState_mapping :
    personaStatusText 0 = "Offline" ∧ personaStatusText 1 = "Online" ∧
    personaStatusText 2 = "Busy" ∧ personaStatusText 3 = "Away" ∧
    personaStatusText 4 = "Snooze" ∧
    personaStatusText 5 = "Looking to trade" ∧
    personaStatusText 6 = "Looking to play" ∧
    personaStatusText 99 = "Unknown" ∧
    (∀ n : Int, n < 0 ∨ 6 < n → personaStatusText n = "Unknown") ∧
    (∀ (p : SteamPayload) (pl : SteamPlayer),
      p.error = false → p.loading = false → p.player = some pl →
      pl.personastate = 1 → p.currentGame = none →
      classifyPayload p = .success ∧ statusTextOf p = "Online" ∧
      currentActivityOf p = none) := by
  refine ⟨rfl, rfl, rfl, rfl, rfl, rfl, rfl, rfl, fun n hn => ?_,
    fun p pl he hl hp hps hg => ⟨?_, ?_, ?_⟩⟩
  · have k0 : n ≠ 0 := by omega
    have k1 : n ≠ 1 := by omega
    have k2 : n ≠ 2 := by omega
    have k3 : n ≠ 3 := by omega
    have k4 : n ≠ 4 := by omega
    have k5 : n ≠ 5 := by omega
    have k6 : n ≠ 6 := by omega
    simp [personaStatusText, k0, k1, k2, k3, k4, k5, k6]
  · simp [classifyPayload, he, hl]
  · simp [statusTextOf, hp, hps, personaStatusText]
  · simp [currentActivityOf, hp, hg]

/-- Witness for `c8_personaState_mapping`: the out-of-table value `-7`
maps to Unknown, and a concrete online-no-game payload yields status
Online with no activity. -/
theorem c8_personaState_mapping_witness :
    personaStatusText (-7) = "Unknown" ∧
    statusTextOf
      { error := false, loading := false
        player := some { personastate := 1, personaname := none }
        currentGame := none, recentGames := none } = "Online" :=
  ⟨c8_personaState_mapping.2.2.2.2.2.2.2.2.1 (-7) (Or.inl (by decide)),
   (c8_personaState_mapping.2.2.2.2.2.2.2.2.2
      { error := false, loading := false
        player := some { personastate := 1, personaname := none }
        currentGame := none, recentGames := none }
      { personastate := 1, personaname := none }
      rfl rfl rfl rfl rfl).2.1⟩

/-! ### C9: recent-games projection -/

/-- C9: for every recent-activity list in the payload, the displayed
recent entries are the list reversed and then truncated to its first 3
elements (a 5-entry list `[a,b,c,d,e]` yields exactly `[e,d,c]`, tail to
head), and an empty or absent list yields the empty sequence (the
projection is a total function, so no error is raised). -/
theorem c9_recentGames_projection (p : SteamPayload) (gs : List SteamGame)
    (a b c d e : SteamGame) :
    (p.recentGames = some gs →
      displayedRecentGames p = (gs.reverse).take 3) ∧
    (p.recentGames = some gs → gs.length = 5 →
      (displayedRecentGames p).length = 3) ∧
    (p.recentGames = some [a, b, c, d, e] →
      displayedRecentGames p = [e, d, c]) ∧
    (p.recentGames = none → displayedRecentGames p = []) ∧
    (p.recentGames = some [] → displayedRecentGames p = []) := by
  refine ⟨fun h => ?_, fun h h5 => ?_, fun h => ?_, fun h => ?_,
    fun h => ?_⟩
  · cases gs <;> simp [displayedRecentGames, h]
  · simp [displayedRecentGames, h, h5, List.length_take,
      List.length_reverse]
  · simp [displayedRecentGames, h]
  · simp [displayedRecentGames, h]
  · simp [displayedRecentGames, h]

/-- A concrete game record used by witnesses. -/
def mkGame (n : Nat) : SteamGame :=
  { appid := n, name := "game", playtime_2weeks := 0
    playtime_forever := 0, img_icon_url := "" }

/-- Witness for `c9_recentGames_projection` on a concrete 5-entry list. -/
theorem c9_recentGames_projection_witness :
    displayedRecentGames
      { error := false, loading := false, player := none
        currentGame := none
        recentGames := some [mkGame 1, mkGame 2, mkGame 3, mkGame 4,
          mkGame 5] } = [mkGame 5, mkGame 4, mkGame 3] :=
  (c9_recentGames_projection
    { error := false, loading := false, player := none
      currentGame := none
      recentGames := some [mkGame 1, mkGame 2, mkGame 3, mkGame 4,
        mkGame 5] }
    [mkGame 1, mkGame 2, mkGame 3, mkGame 4, mkGame 5]
    (mkGame 1) (mkGame 2) (mkGame 3) (mkGame 4) (mkGame 5)).2.2.1 rfl

/-! ### Basic lemmas about the transition functions -/

theorem scheduleRetry_updateInterval (s : SchedState) :
    (scheduleRetry s).updateInterval = s.updateInterval := by
  unfold scheduleRetry
  split <;> rfl

theorem scheduleRetry_intervalsCreated (s : SchedState) :
    (scheduleRetry s).intervalsCreated = s.intervalsCreated := by
  unfold scheduleRetry
  split <;> rfl

theorem handleOutcome_failure_updateInterval (s : SchedState)
    (o : PollOutcome) (h : o.isFailure = true) :
    (handleOutcome s o).updateInterval = s.updateInterval := by
  cases o with
  | success => simp [PollOutcome.isFailure] at h
  | softFailure => exact scheduleRetry_updateInterval s
  | hardFailure => exact scheduleRetry_updateInterval s

theorem applyEvent_failure_updateInterval (s : SchedState) (e : SchedEvent)
    (h : e.outcome.isFailure = true) :
    (applyEvent s e).updateInterval = s.updateInterval := by
  cases e with
  | retryFired o => exact handleOutcome_failure_updateInterval _ o h
  | intervalTick o => exact handleOutcome_failure_updateInterval _ o h

/-- In a run whose outcomes are all failures, the periodic interval is
never created. -/
theorem runFrom_allFailures_updateInterval (es : List SchedEvent) :
    ∀ s : SchedState, allFailures es = true → s.updateInterval = none →
      (runFrom s es).updateInterval = none := by
  induction es with
  | nil => exact fun s _ hs => hs
  | cons e es ih =>
      intro s hall hs
      rw [allFailures, Bool.and_eq_true] at hall
      exact ih (applyEvent s e) hall.2
        (by rw [applyEvent_failure_updateInterval s e hall.1, hs])

/-! ### C5: payload without a `player` field -/

/-- A 2xx body with no error/loading marker and no top-level `player`. -/
def noPlayerPayload : SteamPayload :=
  { error := false, loading := false, player := none, currentGame := none
    recentGames := none }

/-- C5 counterexample: a 2xx payload with no error/loading marker and no
top-level `player` field is NOT classified as a soft failure — it drives
the success path of `fetchSteamStatus`, which resets `retryCount` to 0,
clears the retry timeout and starts the periodic updates (the missing
player only yields a "Status unavailable" render and a logged error). -/
theorem c5_counterexample :
    classifyPayload noPlayerPayload ≠ PollOutcome.softFailure ∧
    classifyPayload noPlayerPayload = PollOutcome.success ∧
    handleOutcome initState (classifyPayload noPlayerPayload) =
      { retryCount := 0, retryTimer := none, updateInterval := some 120000
        intervalsCreated := 1 } := by decide

/-- C5 amended: every 2xx payload that carries no error/loading marker —
including one lacking the top-level `player` field — is treated as a
success by the scheduler: `retryCount` is reset to 0, the retry timeout
is cleared and the periodic update interval is started; the missing
player affects only the rendering, which falls back to
"Status unavailable". It does not drive the retry/backoff path. -/
theorem c5_amended (p : SteamPayload) (he : p.error = false)
    (hl : p.loading = false) (hp : p.player = none) :
    classifyPayload p = PollOutcome.success ∧
    statusTextOf p = "Status unavailable" ∧
    ∀ s : SchedState,
      (handleOutcome s (classifyPayload p)).retryCount = 0 ∧
      (handleOutcome s (classifyPayload p)).retryTimer = none ∧
      (handleOutcome s (classifyPayload p)).updateInterval.isSome = true := by
  have hcl : classifyPayload p = PollOutcome.success := by
    simp [classifyPayload, he, hl]
  refine ⟨hcl, by simp [statusTextOf, hp], fun s => ?_⟩
  rw [hcl]
  by_cases h : s.updateInterval.isSome <;>
    simp [handleOutcome, startPeriodicUpdates, h]

/-- Witness for `c5_amended` at the concrete no-player payload and the
initial state. -/
theorem c5_amended_witness :
    (handleOutcome initState (classifyPayload noPlayerPayload)).retryCount
      = 0 :=
  ((c5_amended noPlayerPayload rfl rfl rfl).2.2 initState).1

/-! ### C6: evolution of `retryCount` -/

/-- The state reached after 10 consecutive failures (the initial fetch
plus 9 fired retries): `retryCount = 10` with a retry timeout pending. -/
def c6state : SchedState :=
  startRun PollOutcome.hardFailure
    (List.replicate 9 (SchedEvent.retryFired PollOutcome.hardFailure))

/-- C6 counterexample: in the reachable state with
`retryCount = maxRetries` a further failure step is enabled, and handling
it leaves `retryCount` at 10 instead of incrementing it to 11 —
`scheduleRetry` returns from its give-up branch without touching the
counter. -/
theorem c6_counterexample :
    validRun PollOutcome.hardFailure
      (List.replicate 9 (SchedEvent.retryFired PollOutcome.hardFailure))
      = true ∧
    c6state.retryCount = maxRetries ∧
    enabled c6state (.retryFired .softFailure) = true ∧
    (applyEvent c6state (.retryFired .softFailure)).retryCount
      = maxRetries := by decide

/-- C6 amended: in every step of the scheduler, `retryCount` becomes 0
exactly when the handled outcome is a Success; on a SoftFailure or
HardFailure it increments by exactly 1 while `retryCount < maxRetries`,
and is left unchanged once `retryCount ≥ maxRetries` (the give-up
branch). -/
theorem c6_amended (s : SchedState) (o : PollOutcome) :
    ((handleOutcome s o).retryCount = 0 ↔ o = PollOutcome.success) ∧
    (o.isFailure = true → s.retryCount < maxRetries →
      (handleOutcome s o).retryCount = s.retryCount + 1) ∧
    (o.isFailure = true → maxRetries ≤ s.retryCount →
      (handleOutcome s o).retryCount = s.retryCount) := by
  cases o with
  | success =>
      refine ⟨?_, by simp [PollOutcome.isFailure],
        by simp [PollOutcome.isFailure]⟩
      simp only [handleOutcome, startPeriodicUpdates]
      split <;> simp
  | softFailure =>
      refine ⟨?_, fun _ hlt => ?_, fun _ hge => ?_⟩
      · by_cases h : 10 ≤ s.retryCount <;>
          simp [handleOutcome, scheduleRetry, maxRetries, h] <;> omega
      · have hn : ¬ maxRetries ≤ s.retryCount := by omega
        simp [handleOutcome, scheduleRetry, hn]
      · simp [handleOutcome, scheduleRetry, hge]
  | hardFailure =>
      refine ⟨?_, fun _ hlt => ?_, fun _ hge => ?_⟩
      · by_cases h : 10 ≤ s.retryCount <;>
          simp [handleOutcome, scheduleRetry, maxRetries, h] <;> omega
      · have hn : ¬ maxRetries ≤ s.retryCount := by omega
        simp [handleOutcome, scheduleRetry, hn]
      · simp [handleOutcome, scheduleRetry, hge]

/-- Witness for `c6_amended` at the initial state and a hard failure. -/
theorem c6_amended_witness :
    (handleOutcome initState PollOutcome.hardFailure).retryCount =
      initState.retryCount + 1 :=
  (c6_amended initState PollOutcome.hardFailure).2.1 rfl (by decide)

/-! ### C2: behaviour after give-up -/

/-- From a state with no pending retry timeout and no interval, no event
is enabled, so the only valid continuation is the empty one. -/
theorem validFrom_halted (s : SchedState) (es : List SchedEvent)
    (ht : s.retryTimer = none) (hu : s.updateInterval = none)
    (hv : validFrom s es = true) : es = [] := by
  cases es with
  | nil => rfl
  | cons e es =>
      rw [validFrom, Bool.and_eq_true] at hv
      cases e with
      | retryFired o => rw [enabled, ht] at hv; simp at hv
      | intervalTick o => rw [enabled, hu] at hv; simp at hv

/-- Handling a failure while `retryCount ≥ maxRetries` is a no-op of
`scheduleRetry`: firing the retry timeout only consumes it. -/
theorem applyEvent_gaveUp (s : SchedState) (o : PollOutcome)
    (hf : o.isFailure = true) (hrc : maxRetries ≤ s.retryCount) :
    applyEvent s (SchedEvent.retryFired o) = { s with retryTimer := none } := by
  cases o with
  | success => simp [PollOutcome.isFailure] at hf
  | softFailure => simp [applyEvent, handleOutcome, scheduleRetry, hrc]
  | hardFailure => simp [applyEvent, handleOutcome, scheduleRetry, hrc]

/-- In a valid run whose outcomes are all failures, once the give-up
branch has been taken the run has halted: no retry timeout is pending, no
interval exists, and no further event is enabled. -/
theorem gaveUp_noSuccess_halts (es : List SchedEvent) :
    ∀ s : SchedState, s.updateInterval = none →
      validFrom s es = true → allFailures es = true →
      gaveUpDuring s es = true →
      (runFrom s es).retryTimer = none ∧
      (runFrom s es).updateInterval = none ∧
      ∀ e : SchedEvent, enabled (runFrom s es) e = false := by
  induction es with
  | nil => intro s _ _ _ hg; simp [gaveUpDuring] at hg
  | cons e es ih =>
      intro s hs hv hall hg
      rw [validFrom, Bool.and_eq_true] at hv
      obtain ⟨hen, hv'⟩ := hv
      rw [allFailures, Bool.and_eq_true] at hall
      obtain ⟨hf, hall'⟩ := hall
      cases e with
      | intervalTick o => rw [enabled, hs] at hen; simp at hen
      | retryFired o =>
          rw [gaveUpDuring, Bool.or_eq_true] at hg
          rcases hg with hgu | hg'
          · rw [Bool.and_eq_true] at hgu
            have hrc : maxRetries ≤ s.retryCount :=
              of_decide_eq_true hgu.2
            have heq := applyEvent_gaveUp s o hf hrc
            rw [heq] at hv'
            have hes : es = [] :=
              validFrom_halted { s with retryTimer := none } es rfl hs hv'
            subst hes
            rw [runFrom, heq, runFrom]
            refine ⟨rfl, hs, fun e => ?_⟩
            cases e with
            | retryFired o => rfl
            | intervalTick o => rw [enabled, hs]; rfl
          · have hs' : (applyEvent s (SchedEvent.retryFired o)).updateInterval
                = none := by
              rw [applyEvent_failure_updateInterval _ _ hf, hs]
            exact ih (applyEvent s (SchedEvent.retryFired o)) hs' hv' hall' hg'

/-- The run witnessing C2's counterexample: an initial Success (which
creates the periodic interval), then eleven consecutive failures — the
first from an interval tick, the rest from fired retry timeouts — the
last of which takes the give-up branch. -/
def c2run : List SchedEvent :=
  SchedEvent.intervalTick PollOutcome.hardFailure ::
    List.replicate 10 (SchedEvent.retryFired PollOutcome.hardFailure)

/-- C2 counterexample: in a run where a Success occurred before the
failures, the give-up branch is taken (a failure is handled while
`retryCount ≥ maxRetries`), yet afterwards the periodic interval is still
pending and an interval tick — a further automatic fetch attempt — is
still enabled. -/
theorem c2_counterexample :
    validRun PollOutcome.success c2run = true ∧
    gaveUpDuring (handleOutcome initState PollOutcome.success) c2run
      = true ∧
    (startRun PollOutcome.success c2run).updateInterval = some 120000 ∧
    enabled (startRun PollOutcome.success c2run)
      (.intervalTick .hardFailure) = true := by decide

/-- C2 amended: once the scheduler has given up, no retry timeout is ever
armed again; and in a run in which no Success ever occurred (so the
periodic interval was never created), no further fetch attempt of any
kind is scheduled automatically — no event is enabled after the give-up.
(When a Success occurred earlier, the periodic 120000 ms interval
persists and keeps triggering fetch attempts even after the give-up.) -/
theorem c2_amended (o₀ : PollOutcome) (es : List SchedEvent)
    (h₀ : o₀.isFailure = true)
    (hv : validRun o₀ es = true) (hall : allFailures es = true)
    (hg : gaveUpDuring (handleOutcome initState o₀) es = true) :
    (startRun o₀ es).retryTimer = none ∧
    (startRun o₀ es).updateInterval = none ∧
    ∀ e : SchedEvent, enabled (startRun o₀ es) e = false := by
  have hu : (handleOutcome initState o₀).updateInterval = none := by
    rw [handleOutcome_failure_updateInterval _ _ h₀]; rfl
  exact gaveUp_noSuccess_halts es (handleOutcome initState o₀) hu hv hall hg

/-- The all-failure run used by the C2 witness: the initial failure plus
ten fired retry timeouts, the last of which takes the give-up branch. -/
def c2wrun : List SchedEvent :=
  List.replicate 10 (SchedEvent.retryFired PollOutcome.hardFailure)

/-- Witness for `c2_amended` on the concrete all-failure run. -/
theorem c2_amended_witness :
    (startRun PollOutcome.hardFailure c2wrun).retryTimer = none :=
  (c2_amended PollOutcome.hardFailure c2wrun rfl (by decide) (by decide)
    (by decide)).1

/-! ### C3: how many consecutive failures until give-up -/

/-- Nine fired retry timeouts; together with the initial fetch this makes
exactly 10 consecutive failure outcomes. -/
def c3runTen : List SchedEvent :=
  List.replicate 9 (SchedEvent.retryFired PollOutcome.hardFailure)

/-- C3 counterexample: after exactly `maxRetries` (10) consecutive
failure outcomes from the initial state, the scheduler has NOT given up —
a 30000 ms retry timeout is pending (so a timer IS armed) and the give-up
branch was never taken during the run. -/
theorem c3_counterexample :
    c3runTen.length + 1 = maxRetries ∧
    validRun PollOutcome.hardFailure c3runTen = true ∧
    allFailures c3runTen = true ∧
    (startRun PollOutcome.hardFailure c3runTen).retryTimer = some 30000 ∧
    gaveUpDuring (handleOutcome initState PollOutcome.hardFailure) c3runTen
      = false := by decide

/-- Ten fired retry timeouts; together with the initial fetch this makes
exactly 11 consecutive failure outcomes. -/
def c3runEleven : List SchedEvent :=
  List.replicate 10 (SchedEvent.retryFired PollOutcome.hardFailure)

/-- C3 amended: after exactly `maxRetries + 1` (11) consecutive failure
outcomes with no intervening Success, the scheduler has given up:
`retryCount = maxRetries`, no timer of any kind is pending, no further
event is enabled, and handling any further injected failure outcome
leaves the state unchanged. -/
theorem c3_amended :
    (validRun PollOutcome.hardFailure c3runEleven = true ∧
     allFailures c3runEleven = true ∧
     c3runEleven.length + 1 = maxRetries + 1) ∧
    (startRun PollOutcome.hardFailure c3runEleven).retryCount
      = maxRetries ∧
    (startRun PollOutcome.hardFailure c3runEleven).retryTimer = none ∧
    (startRun PollOutcome.hardFailure c3runEleven).updateInterval
      = none ∧
    (∀ e : SchedEvent,
      enabled (startRun PollOutcome.hardFailure c3runEleven) e = false) ∧
    (∀ o : PollOutcome, o.isFailure = true →
      handleOutcome (startRun PollOutcome.hardFailure c3runEleven) o =
        startRun PollOutcome.hardFailure c3runEleven) := by
  refine ⟨by decide, by decide, by decide, by decide, fun e => ?_,
    fun o ho => ?_⟩
  · cases e with
    | retryFired o => rfl
    | intervalTick o => rfl
  · cases o with
    | success => simp [PollOutcome.isFailure] at ho
    | softFailure => decide
    | hardFailure => decide

/-- Witness for `c3_amended`: a further injected soft failure leaves the
given-up state unchanged. -/
theorem c3_amended_witness :
    handleOutcome (startRun PollOutcome.hardFailure c3runEleven)
      PollOutcome.softFailure =
      startRun PollOutcome.hardFailure c3runEleven :=
  c3_amended.2.2.2.2.2 PollOutcome.softFailure rfl

/-! ### C4: how many timers can be pending at once -/

/-- C4 counterexample: after a Success followed by a failing interval
tick, TWO timers are pending at the same instant — the 1000 ms retry
timeout just armed by `scheduleRetry` and the periodic 120000 ms interval,
which `scheduleRetry` does not cancel. -/
theorem c4_counterexample :
    validRun PollOutcome.success
      [SchedEvent.intervalTick PollOutcome.hardFailure] = true ∧
    pendingTimerCount (startRun PollOutcome.success
      [SchedEvent.intervalTick PollOutcome.hardFailure]) = 2 ∧
    (startRun PollOutcome.success
      [SchedEvent.intervalTick PollOutcome.hardFailure]).retryTimer
      = some 1000 ∧
    (startRun PollOutcome.success
      [SchedEvent.intervalTick PollOutcome.hardFailure]).updateInterval
      = some 120000 := by decide

/-- C4 amended: at most one pending retry timeout exists at any instant
(arming a new one always replaces the previous) and at most one periodic
interval, so at most TWO timers are pending at any instant of any run —
and as long as no Success has occurred, at most one (the retry timeout),
since the periodic interval is only created on the success path. -/
theorem c4_amended (o₀ : PollOutcome) (es : List SchedEvent) :
    pendingTimerCount (startRun o₀ es) ≤ 2 ∧
    (o₀.isFailure = true → allFailures es = true →
      pendingTimerCount (startRun o₀ es) ≤ 1) := by
  constructor
  · unfold pendingTimerCount
    split <;> split <;> decide
  · intro h₀ hall
    have hu : (startRun o₀ es).updateInterval = none :=
      runFrom_allFailures_updateInterval es (handleOutcome initState o₀)
        hall (by rw [handleOutcome_failure_updateInterval _ _ h₀]; rfl)
    cases h : (startRun o₀ es).retryTimer <;>
      simp [pendingTimerCount, h, hu]

/-- Witness for `c4_amended` on the run with a single initial failure. -/
theorem c4_amended_witness :
    pendingTimerCount (startRun PollOutcome.hardFailure []) ≤ 1 :=
  (c4_amended PollOutcome.hardFailure []).2 rfl rfl

/-! ### C10: the periodic update interval -/

/-- Invariant tying the periodic interval to the count of intervals ever
created: either none was ever created, or exactly one — the 120000 ms
one — which still exists. -/
def IntervalInv (s : SchedState) : Prop :=
  (s.updateInterval = none ∧ s.intervalsCreated = 0) ∨
    (s.updateInterval = some 120000 ∧ s.intervalsCreated = 1)

theorem handleOutcome_IntervalInv (s : SchedState) (o : PollOutcome)
    (h : IntervalInv s) : IntervalInv (handleOutcome s o) := by
  cases o with
  | success =>
      rcases h with ⟨h1, h2⟩ | ⟨h1, h2⟩
      · right
        simp [handleOutcome, startPeriodicUpdates, h1, h2]
      · right
        simp [handleOutcome, startPeriodicUpdates, h1, h2]
  | softFailure =>
      rcases h with ⟨h1, h2⟩ | ⟨h1, h2⟩
      · left
        rw [handleOutcome, scheduleRetry_updateInterval,
          scheduleRetry_intervalsCreated]
        exact ⟨h1, h2⟩
      · right
        rw [handleOutcome, scheduleRetry_updateInterval,
          scheduleRetry_intervalsCreated]
        exact ⟨h1, h2⟩
  | hardFailure =>
      rcases h with ⟨h1, h2⟩ | ⟨h1, h2⟩
      · left
        rw [handleOutcome, scheduleRetry_updateInterval,
          scheduleRetry_intervalsCreated]
        exact ⟨h1, h2⟩
      · right
        rw [handleOutcome, scheduleRetry_updateInterval,
          scheduleRetry_intervalsCreated]
        exact ⟨h1, h2⟩

theorem applyEvent_IntervalInv (s : SchedState) (e : SchedEvent)
    (h : IntervalInv s) : IntervalInv (applyEvent s e) := by
  cases e with
  | retryFired o =>
      exact handleOutcome_IntervalInv { s with retryTimer := none } o h
  | intervalTick o => exact handleOutcome_IntervalInv s o h

theorem runFrom_IntervalInv (es : List SchedEvent) :
    ∀ s : SchedState, IntervalInv s → IntervalInv (runFrom s es) := by
  induction es with
  | nil => exact fun s h => h
  | cons e es ih =>
      exact fun s h => ih (applyEvent s e) (applyEvent_IntervalInv s e h)

/-- Once the interval exists, any outcome handling leaves it in place:
`startPeriodicUpdates` is guarded by `if (!updateInterval)` and nothing
ever calls `clearInterval` on it. -/
theorem handleOutcome_updateInterval_some (s : SchedState)
    (o : PollOutcome) (h : s.updateInterval = some 120000) :
    (handleOutcome s o).updateInterval = some 120000 := by
  cases o with
  | success => simp [handleOutcome, startPeriodicUpdates, h]
  | softFailure => rw [handleOutcome, scheduleRetry_updateInterval]; exact h
  | hardFailure => rw [handleOutcome, scheduleRetry_updateInterval]; exact h

/-- C10: in every run at most one periodic interval is ever created
(`startPeriodicUpdates` is idempotent through its `if (!updateInterval)`
guard), the interval — once created — is the 120000 ms one and survives
every event (nothing cancels it, regardless of failures or of
`retryCount` reaching `maxRetries`), and after any Success the interval
exists, so interval ticks — periodic re-invocations of the fetch — stay
enabled for the rest of the run. -/
theorem c10_periodic_interval (o₀ : PollOutcome) (es : List SchedEvent) :
    (startRun o₀ es).intervalsCreated ≤ 1 ∧
    ((startRun o₀ es).updateInterval = none ∨
      (startRun o₀ es).updateInterval = some 120000) ∧
    (∀ (s : SchedState) (e : SchedEvent),
      s.updateInterval = some 120000 →
      (applyEvent s e).updateInterval = some 120000) ∧
    (∀ s : SchedState,
      (handleOutcome s PollOutcome.success).updateInterval.isSome
        = true ∧
      enabled (handleOutcome s PollOutcome.success)
        (.intervalTick .success) = true) := by
  have hinv : IntervalInv (startRun o₀ es) :=
    runFrom_IntervalInv es (handleOutcome initState o₀)
      (handleOutcome_IntervalInv initState o₀ (Or.inl ⟨rfl, rfl⟩))
  refine ⟨?_, ?_, fun s e h => ?_, fun s => ?_⟩
  · rcases hinv with ⟨_, h2⟩ | ⟨_, h2⟩ <;> omega
  · rcases hinv with ⟨h1, _⟩ | ⟨h1, _⟩
    · exact Or.inl h1
    · exact Or.inr h1
  · cases e with
    | retryFired o =>
        exact handleOutcome_updateInterval_some
          { s with retryTimer := none } o h
    | intervalTick o => exact handleOutcome_updateInterval_some s o h
  · by_cases h : s.updateInterval.isSome <;>
      constructor <;>
      simp [handleOutcome, startPeriodicUpdates, enabled, h]

/-- Witness for `c10_periodic_interval`: a failing interval tick leaves
the 120000 ms interval in place. -/
theorem c10_periodic_interval_witness :
    (applyEvent
      { retryCount := 0, retryTimer := none
        updateInterval := some 120000, intervalsCreated := 1 }
      (.intervalTick .hardFailure)).updateInterval = some 120000 :=
  (c10_periodic_interval PollOutcome.success []).2.2.1
    { retryCount := 0, retryTimer := none
      updateInterval := some 120000, intervalsCreated := 1 }
    (.intervalTick .hardFailure) rfl

end Steam
